import Mathlib

/-!
Shallow embedding of the password-generator backend (generation engine,
cache store wrapper, cache-aside middleware, invalidation flows and
telemetry rendering) together with theorems settling the specification
claims against it.
-/

namespace PassGen

/-! ### Generation engine (service part_002) -/

/-- Option flags for password generation (interface Options). -/
structure Options where
  upper : Bool
  lower : Bool
  numbers : Bool
  symbols : Bool
deriving DecidableEq

/-- CHARSETS.upper from the source. -/
def upperChars : String := "ABCDEFGHIJKLMNOPQRSTUVWXYZ"

/-- CHARSETS.lower from the source. -/
def lowerChars : String := "abcdefghijklmnopqrstuvwxyz"

/-- CHARSETS.numbers from the source. -/
def numberChars : String := "0123456789"

/-- CHARSETS.symbols from the source. -/
def symbolChars : String := "!@#$%^&*()_+-=[]\x7b\x7d<>?"

/-- Character pool assembled by generatePassword: concatenation of the
charsets whose flags are true, in the fixed order upper, lower, numbers,
symbols (source lines 33-38). -/
def poolList (o : Options) : List Char :=
  (if o.upper then upperChars.data else []) ++
  (if o.lower then lowerChars.data else []) ++
  (if o.numbers then numberChars.data else []) ++
  (if o.symbols then symbolChars.data else [])

/-- The index computation of the drawing loop (source line 51):
randomIndex = array[i] % pool.length. -/
def drawIndex (v poolLen : Nat) : Nat := v % poolLen

/-- The drawing loop of generatePassword (source lines 50-53): character i
of the result is pool[array[i] % pool.length]. The raw 32-bit random
values are modelled by the function rand. The default character of getD
is never used when the pool is non-empty. -/
def drawChars (pool : List Char) (length : Nat) (rand : Nat → Nat) : List Char :=
  (List.range length).map (fun i => pool.getD (drawIndex (rand i) pool.length) 'A')

/-- The password produced by generatePassword for a given stream of raw
random values (source lines 30-53). -/
def servicePassword (length : Nat) (o : Options) (rand : Nat → Nat) : List Char :=
  drawChars (poolList o) length rand

/-- evaluateStrength (source lines 19-25): entropy = password.length *
log2(poolSize); below 40 Weak, below 60 Medium, otherwise Strong. -/
noncomputable def evaluateStrength (password : List Char) (poolSize : Nat) : String :=
  if (password.length : ℝ) * Real.logb 2 (poolSize : ℝ) < 40 then "Weak"
  else if (password.length : ℝ) * Real.logb 2 (poolSize : ℝ) < 60 then "Medium"
  else "Strong"

/-- validateOptions (source lines 69-83). The integrality check of the
source is vacuous here because length is a natural number. -/
def validateOptions (length : Nat) (o : Options) : Bool :=
  if length < 4 || length > 64 then false
  else if !o.upper && !o.lower && !o.numbers && !o.symbols then false
  else true

/-! ### Controller defaults for generate (password.controller.ts lines 14-21) -/

/-- The optional fields of a generate request body. -/
structure GenerateBody where
  length : Option Nat
  upper : Option Bool
  lower : Option Bool
  numbers : Option Bool
  symbols : Option Bool

/-- A request with an empty body: every field absent. -/
def emptyBody : GenerateBody := ⟨none, none, none, none, none⟩

/-- Controller default for length (line 14): 12 when absent. -/
def controllerLength (b : GenerateBody) : Nat := b.length.getD 12

/-- Controller defaults for the option flags (lines 16-21): upper, lower,
numbers default to true, symbols to false. -/
def controllerOptions (b : GenerateBody) : Options :=
  ⟨b.upper.getD true, b.lower.getD true, b.numbers.getD true, b.symbols.getD false⟩

/-! ### Cache store model (config/redis.ts) -/

/-- A cache keyspace: an association list from keys to values, most
recently written first. -/
abbrev Cache (V : Type) : Type := List (String × V)

/-- Lookup in the cache. -/
def cacheGet {V : Type} (c : Cache V) (k : String) : Option V :=
  (List.find? (fun e => e.1 == k) c).map Prod.snd

/-- Store a value under a key, replacing any existing entry (setEx
replaces wholesale). -/
def cacheSet {V : Type} (c : Cache V) (k : String) (v : V) : Cache V :=
  (k, v) :: List.filter (fun e => !(e.1 == k)) c

/-- Glob matching as used by the KEYS calls of the source. The only
patterns the source passes are a literal, or a literal followed by a
single trailing star, so a star matches any remainder of the key. -/
def globMatch : List Char → List Char → Bool
  | [], [] => true
  | [], _ :: _ => false
  | c :: ps, ks =>
    if c = '*' then true
    else
      match ks with
      | [] => false
      | k :: ks2 => c = k && globMatch ps ks2

/-- Glob matching on strings. -/
def globMatchS (pat key : String) : Bool := globMatch pat.data key.data

/-- delPattern (redis.ts lines 98-108): enumerate the keys matching the
glob and delete them. -/
def delPattern {V : Type} (c : Cache V) (pat : String) : Cache V :=
  List.filter (fun e => !(globMatchS pat e.1)) c

/-! ### Record store and history endpoint (password.controller.ts) -/

/-- A stored secret record (models/password.model, part_001). Timestamps
are modelled as naturals. -/
structure Record where
  password : String
  strength : String
  length : Nat
  responseTime : Nat
  createdAt : Nat
  ipAddress : String
  userAgent : String
deriving DecidableEq

/-- The shape of a history item after the select projection of getHistory
(line 116) removed ipAddress, userAgent and the version key. -/
structure PublicRecord where
  password : String
  strength : String
  length : Nat
  responseTime : Nat
  createdAt : Nat
deriving DecidableEq

/-- The select projection of getHistory line 116: drop ipAddress and
userAgent. -/
def scrub (r : Record) : PublicRecord :=
  ⟨r.password, r.strength, r.length, r.responseTime, r.createdAt⟩

/-- Insert a record into a list sorted by createdAt descending, keeping
existing strictly-newer records in front. -/
def insertByCreatedDesc (r : Record) : List Record → List Record
  | [] => [r]
  | x :: xs =>
    if r.createdAt ≤ x.createdAt then x :: insertByCreatedDesc r xs
    else r :: x :: xs

/-- The sort of the find query of getHistory (line 113): createdAt
descending. -/
def sortByCreatedDesc : List Record → List Record
  | [] => []
  | x :: xs => insertByCreatedDesc x (sortByCreatedDesc xs)

/-- Ceiling division, modelling Math.ceil(total / limit) for a positive
limit (line 127). -/
def ceilDiv (a b : Nat) : Nat := (a + b - 1) / b

/-- The JSON body getHistory produces on the database path (lines
112-129). The cached field models the presence of the cached: true
marker, absent (false) on a fresh response. -/
structure HistoryResponse where
  success : Bool
  data : List PublicRecord
  total : Nat
  page : Nat
  limit : Nat
  totalPages : Nat
  cached : Bool
deriving DecidableEq

/-- The database path of getHistory: sort by createdAt descending, skip
(page - 1) * limit, take limit, project away the metadata, and attach the
pagination block. -/
def dbHistoryResponse (db : List Record) (limit page : Nat) : HistoryResponse :=
  { success := true
    data := (((sortByCreatedDesc db).drop ((page - 1) * limit)).take limit).map scrub
    total := db.length
    page := page
    limit := limit
    totalPages := ceilDiv db.length limit
    cached := false }

/-- The cache key of getHistory (line 95): history:limit:page. -/
def historyKey (limit page : Nat) : String :=
  "history:" ++ toString limit ++ ":" ++ toString page

/-- getHistory (lines 89-145): when the store is ready and the key is
cached, answer the cached body with the cached marker; otherwise compute
from the database and, when the store is ready, populate the cache. -/
def getHistory (ready : Bool) (cache : Cache HistoryResponse) (db : List Record)
    (limit page : Nat) : HistoryResponse × Cache HistoryResponse :=
  let key := historyKey limit page
  if ready then
    match cacheGet cache key with
    | some r => ({ r with cached := true }, cache)
    | none =>
      let resp := dbHistoryResponse db limit page
      (resp, cacheSet cache key resp)
  else (dbHistoryResponse db limit page, cache)

/-- The cache invalidation performed after a successful generate
(password.controller.ts line 50): clearCache with pattern cache:* only. -/
def afterGenerateInvalidation {V : Type} (c : Cache V) : Cache V :=
  delPattern c "cache:*"

/-- The cache invalidation performed after delete-one (lines 292-294):
patterns cache:*, history:* and stats:*. -/
def afterDeleteInvalidation {V : Type} (c : Cache V) : Cache V :=
  delPattern (delPattern (delPattern c "cache:*") "history:*") "stats:*"

/-- The cache invalidation performed by clear-all (line 251): pattern *. -/
def afterClearInvalidation {V : Type} (c : Cache V) : Cache V :=
  delPattern c "*"

/-! ### Cache-aside middleware (middleware/cache.middleware.ts) -/

/-- Key derivation of the middleware (line 24): keyPref, a colon, and the
request's originalUrl verbatim (path plus query string as sent). -/
def deriveKey (keyPref url : String) : String := keyPref ++ ":" ++ url

/-- State visible to the middleware: the cache keyspace plus the three
telemetry counters of the stats keys (stats:cache:hits,
stats:cache:misses, stats:total:requests). -/
structure MwState (V : Type) where
  cache : Cache V
  hits : Nat
  misses : Nat
  totalRequests : Nat
deriving DecidableEq

/-- One wrapped GET through cacheMiddleware (lines 12-53). When the store
is not ready the request passes straight through. On a hit the cached
body is served with the cached marker; on a miss the downstream body is
served and cached when the status is 200. The middleware body contains no
counter update, so the three counters are returned unchanged on every
path. The Bool of the result records whether the response was served from
the cache. -/
def cacheMiddlewareStep {V : Type} (ready : Bool) (keyPref : String) (st : MwState V)
    (url : String) (downstream : V) (status : Nat) : (V × Bool) × MwState V :=
  if ready then
    let key := deriveKey keyPref url
    match cacheGet st.cache key with
    | some v => ((v, true), st)
    | none =>
      ((downstream, false),
        if status == 200 then { st with cache := cacheSet st.cache key downstream } else st)
  else ((downstream, false), st)

/-- Run a sequence of wrapped GET requests (url, downstream body, status)
through the middleware, collecting the served-from-cache flags. -/
def runRequests {V : Type} (ready : Bool) (keyPref : String) (st : MwState V) :
    List (String × V × Nat) → List Bool × MwState V
  | [] => ([], st)
  | (url, body, status) :: rest =>
    let out := cacheMiddlewareStep ready keyPref st url body status
    let next := runRequests ready keyPref out.2 rest
    (out.1.2 :: next.1, next.2)

/-! ### Telemetry rendering (password.controller.ts getCacheStats and
getPerformanceMetrics) -/

/-- Rounding of a non-negative rational to the nearest integer, ties up,
as toFixed behaves on non-negative values. -/
def ratRound (q : ℚ) : Int := Rat.floor (q + 1 / 2)

/-- Rendering of a non-negative rational with exactly two decimal places,
modelling toFixed(2) of the source at the exact values it is applied to. -/
def toFixed2 (q : ℚ) : String :=
  let n : Int := ratRound (q * 100)
  let fp := (n % 100).toNat
  toString (n / 100) ++ "." ++ (if fp < 10 then "0" else "") ++ toString fp

/-- Hit-rate string of getCacheStats (lines 332-334): hits divided by the
stats:total:requests counter times 100 when that counter is positive,
otherwise the literal 0.00. -/
def hitRateString (cacheHits totalRequests : Nat) : String :=
  if totalRequests > 0 then toFixed2 (((cacheHits : ℚ) / (totalRequests : ℚ)) * 100)
  else "0.00"

/-- The hit-rate field as responded (line 352): the rate string followed
by a percent sign. -/
def hitRateDisplay (cacheHits totalRequests : Nat) : String :=
  hitRateString cacheHits totalRequests ++ "%"

/-- The speedup field of getPerformanceMetrics. -/
inductive SpeedupOutput where
  | notApplicable
  | value (q : ℚ)
deriving DecidableEq

/-- The speedup computation of getPerformanceMetrics (line 456): when
dbReadTime is positive the source computes dbReadTime / cacheReadTime and
renders it; otherwise it renders N/A. The guard never inspects
cacheReadTime. Division here is total rational division; in the source it
is floating division, which yields Infinity when cacheReadTime is 0. -/
def speedupRendered (dbReadTime cacheReadTime : ℚ) : SpeedupOutput :=
  if dbReadTime > 0 then SpeedupOutput.value (dbReadTime / cacheReadTime)
  else SpeedupOutput.notApplicable

/-! ### Cache store wrappers (config/redis.ts lines 69-139)

Each wrapper checks the connected flag and guards the underlying client
call with a try/catch that falls back to a default. The outcome of the
underlying networked call is passed in as an Except value: an error
models a thrown connectivity failure caught by the wrapper. -/

/-- get (lines 69-78): null when disconnected or the call throws. -/
def redisGetModel (conn : Bool) (underlying : Except Unit (Option String)) : Option String :=
  if conn = false then none
  else match underlying with
    | Except.ok v => v
    | Except.error _ => none

/-- set (lines 80-87): the keyspace is left unchanged when disconnected
or the call throws. -/
def redisSetModel (conn : Bool) (st : Cache String) (underlying : Except Unit (Cache String)) :
    Cache String :=
  if conn = false then st
  else match underlying with
    | Except.ok s => s
    | Except.error _ => st

/-- del (lines 89-96): the keyspace is left unchanged when disconnected
or the call throws. -/
def redisDelModel (conn : Bool) (st : Cache String) (underlying : Except Unit (Cache String)) :
    Cache String :=
  if conn = false then st
  else match underlying with
    | Except.ok s => s
    | Except.error _ => st

/-- delPattern (lines 98-108): the keyspace is left unchanged when
disconnected or the KEYS or DEL call throws. -/
def redisDelPatternModel (conn : Bool) (st : Cache String)
    (underlying : Except Unit (Cache String)) : Cache String :=
  if conn = false then st
  else match underlying with
    | Except.ok s => s
    | Except.error _ => st

/-- exists (lines 110-119): false when disconnected or the call throws. -/
def redisExistsModel (conn : Bool) (underlying : Except Unit Bool) : Bool :=
  if conn = false then false
  else match underlying with
    | Except.ok b => b
    | Except.error _ => false

/-- incr (lines 121-129): 0 when disconnected or the call throws. -/
def redisIncrModel (conn : Bool) (underlying : Except Unit Nat) : Nat :=
  if conn = false then 0
  else match underlying with
    | Except.ok n => n
    | Except.error _ => 0

/-- ttl (lines 131-139): -1 when disconnected or the call throws. -/
def redisTtlModel (conn : Bool) (underlying : Except Unit Int) : Int :=
  if conn = false then -1
  else match underlying with
    | Except.ok n => n
    | Except.error _ => -1

/-! ### Aggregate statistics endpoint (password.controller.ts getStats) -/

/-- The JSON body of getStats (lines 212-224), restricted to the fields
the claims touch: the total count and the strength grouping of the two
aggregate queries. The average, minimum, maximum and time-window fields
are computed from the same record list and play no role in any claim. -/
structure StatsResponse where
  success : Bool
  totalGenerated : Nat
  weakCount : Nat
  mediumCount : Nat
  strongCount : Nat
  cached : Bool
deriving DecidableEq

/-- The cache key of getStats (line 154). -/
def statsKey : String := "stats:all"

/-- The database path of getStats: countDocuments plus the group-by
strength aggregation. -/
def dbStatsResponse (db : List Record) : StatsResponse :=
  { success := true
    totalGenerated := db.length
    weakCount := (db.filter (fun r => r.strength == "Weak")).length
    mediumCount := (db.filter (fun r => r.strength == "Medium")).length
    strongCount := (db.filter (fun r => r.strength == "Strong")).length
    cached := false }

/-- getStats (lines 151-240): cached body with marker on a ready hit,
fresh aggregate otherwise, populating the cache when ready. -/
def getStats (ready : Bool) (cache : Cache StatsResponse) (db : List Record) :
    StatsResponse × Cache StatsResponse :=
  if ready then
    match cacheGet cache statsKey with
    | some r => ({ r with cached := true }, cache)
    | none =>
      let resp := dbStatsResponse db
      (resp, cacheSet cache statsKey resp)
  else (dbStatsResponse db, cache)

/-! ### Relations and concrete data used by the claim theorems -/

/-- Two record stores agree except possibly in the ipAddress and
userAgent metadata: same length, and pointwise equal after the select
projection of getHistory. -/
def ScrubEq (a b : List Record) : Prop :=
  List.Forall₂ (fun r s => scrub r = scrub s) a b

/-- A history body cached before a mutation, with a total of 5 records. -/
def staleHistory : HistoryResponse := ⟨true, [], 5, 1, 20, 1, false⟩

/-- A stats body cached before a mutation, with a total of 5 records. -/
def staleStats : StatsResponse := ⟨true, 5, 1, 1, 3, false⟩

/-- Middleware state holding one cached entry for the stats route and all
telemetry counters at zero. -/
def mwInit : MwState Nat := ⟨[(deriveKey "cache" "/api/passwords/stats", 7)], 0, 0, 0⟩

/-- Four wrapped GET requests: one miss on the history route followed by
three hits on the cached stats route. -/
def fourRequests : List (String × Nat × Nat) :=
  [("/api/passwords/history", 1, 200), ("/api/passwords/stats", 2, 200),
   ("/api/passwords/stats", 2, 200), ("/api/passwords/stats", 2, 200)]

/-- A record as stored, with client metadata. -/
def recA : Record := ⟨"pw", "Strong", 12, 1, 100, "10.0.0.1", "agentA"⟩

/-- The same record except for the ipAddress and userAgent metadata. -/
def recB : Record := ⟨"pw", "Strong", 12, 1, 100, "192.168.0.9", "agentB"⟩

/-! ### Modulo-bias counting for the drawing step -/

/-- The number of raw random values below N that the index computation of
the drawing loop maps to index r of a pool of size poolLen. -/
def fiberCard (N poolLen r : Nat) : Nat :=
  ((Finset.range N).filter (fun v => drawIndex v poolLen = r)).card

/-! ### Helper lemmas -/

/-- A pool built from at least one selected flag is non-empty. -/
theorem poolList_length_pos (o : Options)
    (h : (o.upper || o.lower || o.numbers || o.symbols) = true) :
    0 < (poolList o).length := by
  rcases o with ⟨u, l, n, s⟩
  cases u <;> cases l <;> cases n <;> cases s <;> first | decide | (exfalso; simp at h)

/-- The drawing loop produces exactly the requested number of characters. -/
theorem servicePassword_length (len : Nat) (o : Options) (rand : Nat → Nat) :
    (servicePassword len o rand).length = len := by
  simp [servicePassword, drawChars]

/-- Every drawn character belongs to the pool when the pool is non-empty. -/
theorem servicePassword_mem (len : Nat) (o : Options) (rand : Nat → Nat)
    (h : 0 < (poolList o).length) :
    ∀ c ∈ servicePassword len o rand, c ∈ poolList o := by
  intro c hc
  simp only [servicePassword, drawChars, List.mem_map, List.mem_range] at hc
  obtain ⟨i, _, rfl⟩ := hc
  have hlt : drawIndex (rand i) (poolList o).length < (poolList o).length :=
    Nat.mod_lt _ h
  rw [List.getD_eq_getElem _ _ hlt]
  exact List.getElem_mem hlt

/-- One-step recurrence for the fiber count of the index map. -/
theorem fiberCard_succ (N n r : Nat) :
    fiberCard (N + 1) n r = fiberCard N n r + (if N % n = r then 1 else 0) := by
  unfold fiberCard drawIndex
  rw [Finset.range_succ, Finset.filter_insert]
  split
  · rw [Finset.card_insert_of_not_mem (by simp)]
  · simp

/-- Closed form of the fiber count for a pool of 62 characters: residue r
is hit once per full block of 62 raw values, plus once more when r falls
below the remainder of the range. -/
theorem fiberCard_closed_62 (N r : Nat) (hr : r < 62) :
    fiberCard N 62 r = N / 62 + (if r < N % 62 then 1 else 0) := by
  induction N with
  | zero => simp [fiberCard]
  | succ N ih =>
    rw [fiberCard_succ, ih]
    split_ifs <;> omega

/-- The base-2 logarithm of 62 is at least 5. -/
theorem logb_two_62_ge_five : (5 : ℝ) ≤ Real.logb 2 62 := by
  rw [Real.le_logb_iff_rpow_le (by norm_num) (by norm_num)]
  have h32 : (2 : ℝ) ^ (5 : ℝ) = 32 := by
    rw [show (5 : ℝ) = ((5 : ℕ) : ℝ) by norm_num, Real.rpow_natCast]
    norm_num
  rw [h32]; norm_num

/-- The base-2 logarithm of 10 is below 5. -/
theorem logb_two_ten_lt_five : Real.logb 2 10 < 5 := by
  rw [Real.logb_lt_iff_lt_rpow (by norm_num) (by norm_num)]
  have h32 : (2 : ℝ) ^ (5 : ℝ) = 32 := by
    rw [show (5 : ℝ) = ((5 : ℕ) : ℝ) by norm_num, Real.rpow_natCast]
    norm_num
  rw [h32]; norm_num

/-- Records equal after the projection have the same creation time. -/
theorem scrub_createdAt {a b : Record} (h : scrub a = scrub b) :
    a.createdAt = b.createdAt := congrArg PublicRecord.createdAt h

/-- Inserting projection-equal records into pointwise projection-equal
lists keeps the lists pointwise projection-equal. -/
theorem forall₂_insertByCreatedDesc {a b : Record} {l1 l2 : List Record}
    (hab : scrub a = scrub b)
    (h : List.Forall₂ (fun r s => scrub r = scrub s) l1 l2) :
    List.Forall₂ (fun r s => scrub r = scrub s)
      (insertByCreatedDesc a l1) (insertByCreatedDesc b l2) := by
  induction h with
  | nil => exact List.Forall₂.cons hab List.Forall₂.nil
  | @cons x y l1 l2 hxy hrest ih =>
    have hc : a.createdAt = b.createdAt := scrub_createdAt hab
    have hx : x.createdAt = y.createdAt := scrub_createdAt hxy
    by_cases hle : a.createdAt ≤ x.createdAt
    · rw [insertByCreatedDesc, insertByCreatedDesc, if_pos hle,
        if_pos (by rw [← hc, ← hx]; exact hle)]
      exact List.Forall₂.cons hxy ih
    · rw [insertByCreatedDesc, insertByCreatedDesc, if_neg hle,
        if_neg (by rw [← hc, ← hx]; exact hle)]
      exact List.Forall₂.cons hab (List.Forall₂.cons hxy hrest)

/-- The createdAt sort preserves pointwise projection-equality. -/
theorem forall₂_sortByCreatedDesc {l1 l2 : List Record}
    (h : List.Forall₂ (fun r s => scrub r = scrub s) l1 l2) :
    List.Forall₂ (fun r s => scrub r = scrub s)
      (sortByCreatedDesc l1) (sortByCreatedDesc l2) := by
  induction h with
  | nil => exact List.Forall₂.nil
  | @cons x y l1 l2 hxy hrest ih => exact forall₂_insertByCreatedDesc hxy ih

/-- Pointwise projection-equal lists project to the same public list. -/
theorem forall₂_map_scrub {l1 l2 : List Record}
    (h : List.Forall₂ (fun r s => scrub r = scrub s) l1 l2) :
    l1.map scrub = l2.map scrub := by
  induction h with
  | nil => rfl
  | cons hxy _ ih => simp [List.map_cons, hxy, ih]

/-- The database path of getHistory is invariant under changes confined
to the projected-away metadata. -/
theorem dbHistoryResponse_scrubEq {db1 db2 : List Record} (h : ScrubEq db1 db2)
    (limit page : Nat) :
    dbHistoryResponse db1 limit page = dbHistoryResponse db2 limit page := by
  unfold dbHistoryResponse
  have hlen : db1.length = db2.length := h.length_eq
  have hdata :
      (((sortByCreatedDesc db1).drop ((page - 1) * limit)).take limit).map scrub
        = (((sortByCreatedDesc db2).drop ((page - 1) * limit)).take limit).map scrub :=
    forall₂_map_scrub
      (List.forall₂_take _ (List.forall₂_drop _ (forall₂_sortByCreatedDesc h)))
  rw [hlen, hdata]

/-- Left cancellation for string concatenation. -/
theorem string_append_cancel_left {a b c : String} (h : a ++ b = a ++ c) : b = c := by
  have hd : (a ++ b).data = (a ++ c).data := by rw [h]
  simp only [String.data_append] at hd
  exact String.ext (List.append_cancel_left hd)

/-! ### Claim theorems -/

/-- C1: the claim asserts that after any successful mutation every cache
entry backing the wrapped read views is absent. The code violates this
for generate: its invalidation deletes only keys under the cache glob, so
the history and stats entries written by the controller survive a
generate and the next GET is served the entry populated before the
mutation, not a fresh downstream read. The delete-one and clear-all
invalidations do remove the history entry, shown for contrast. -/
theorem generate_invalidation_misses_wrapped_views :
    cacheGet (afterGenerateInvalidation [(historyKey 20 1, staleHistory)]) (historyKey 20 1)
        = some staleHistory ∧
      (getHistory true (afterGenerateInvalidation [(historyKey 20 1, staleHistory)]) [] 20 1).1
        = { staleHistory with cached := true } ∧
      { staleHistory with cached := true } ≠ dbHistoryResponse [] 20 1 ∧
      cacheGet (afterGenerateInvalidation [(statsKey, staleStats)]) statsKey
        = some staleStats ∧
      (getStats true (afterGenerateInvalidation [(statsKey, staleStats)]) []).1
        = { staleStats with cached := true } ∧
      cacheGet (afterDeleteInvalidation [(historyKey 20 1, staleHistory)]) (historyKey 20 1)
        = none ∧
      cacheGet (afterClearInvalidation [(historyKey 20 1, staleHistory)]) (historyKey 20 1)
        = none := by
  decide

/-- C2: the claim asserts the raw 32-bit value is mapped to a pool index
without modulo bias. The code maps v to v mod poolSize; over the uniform
range of 2 pow 32 raw values and the 62-character default pool, index 0
is produced by 69273667 raw values while index 61 is produced by only
69273666, so the indices are not equiprobable. -/
theorem generate_index_modulo_bias :
    (poolList ⟨true, true, true, false⟩).length = 62 ∧
      fiberCard (2 ^ 32) 62 0 = 69273667 ∧
      fiberCard (2 ^ 32) 62 61 = 69273666 ∧
      fiberCard (2 ^ 32) 62 0 ≠ fiberCard (2 ^ 32) 62 61 := by
  have h0 : fiberCard (2 ^ 32) 62 0 = 69273667 := by
    rw [fiberCard_closed_62 _ _ (by omega)]
    norm_num
  have h61 : fiberCard (2 ^ 32) 62 61 = 69273666 := by
    rw [fiberCard_closed_62 _ _ (by omega)]
    norm_num
  exact ⟨by decide, h0, h61, by rw [h0, h61]; decide⟩

/-- C3: the claim asserts the middleware increments the hit and miss
counters on every wrapped invocation and that the stats endpoint then
reports 75.00 percent after 3 hits and 1 miss. The middleware body never
touches any counter: after a run with one miss and three hits every
counter still reads 0 and the endpoint reports 0.00 percent. -/
theorem middleware_counters_never_incremented :
    (∀ (ready : Bool) (kp url : String) (st : MwState Nat) (body status : Nat),
        (cacheMiddlewareStep ready kp st url body status).2.hits = st.hits ∧
          (cacheMiddlewareStep ready kp st url body status).2.misses = st.misses ∧
          (cacheMiddlewareStep ready kp st url body status).2.totalRequests
            = st.totalRequests) ∧
      (runRequests true "cache" mwInit fourRequests).1 = [false, true, true, true] ∧
      (runRequests true "cache" mwInit fourRequests).2.hits = 0 ∧
      (runRequests true "cache" mwInit fourRequests).2.misses = 0 ∧
      (runRequests true "cache" mwInit fourRequests).2.totalRequests = 0 ∧
      hitRateDisplay (runRequests true "cache" mwInit fourRequests).2.hits
        (runRequests true "cache" mwInit fourRequests).2.totalRequests = "0.00%" := by
  refine ⟨?_, by decide, by decide, by decide, by decide, by decide⟩
  intro ready kp url st body status
  unfold cacheMiddlewareStep
  cases ready
  · exact ⟨rfl, rfl, rfl⟩
  · cases hcg : cacheGet st.cache (deriveKey kp url)
    · cases hs : (status == 200) <;> simp [hcg, hs, cacheMiddlewareStep]
    · simp only [hcg]
      exact ⟨rfl, rfl, rfl⟩

/-- C4 counterexample: two GETs to the same route carrying the same query
parameters in a different order derive different cache keys, because the
key embeds the original URL verbatim. -/
theorem cacheKey_differs_on_param_order :
    deriveKey "cache" "/api/passwords/history?limit=10&page=2"
      ≠ deriveKey "cache" "/api/passwords/history?page=2&limit=10" := by
  decide

/-- C4 amended: the middleware derives the key from keyPref and the
verbatim original URL, so two requests derive the identical key exactly
when their original URL strings, query-parameter order included, are
identical. -/
theorem cacheKey_eq_iff_url_eq (kp u1 u2 : String) :
    deriveKey kp u1 = deriveKey kp u2 ↔ u1 = u2 := by
  constructor
  · intro h
    exact string_append_cancel_left h
  · intro h
    rw [h]

/-- C5: the claim asserts the speedup is rendered not-applicable whenever
the cache latency is zero. The guard of the code inspects only the record
store latency: with a record-store latency of 5 and a cache latency of 0
it does not render not-applicable but computes the quotient by the zero
cache latency (Infinity in the floating arithmetic of the source). The
not-applicable branch triggers only when the record-store latency is not
positive. -/
theorem speedup_guard_ignores_cache_latency :
    speedupRendered 5 0 = SpeedupOutput.value ((5 : ℚ) / 0) ∧
      speedupRendered 5 0 ≠ SpeedupOutput.notApplicable ∧
      speedupRendered 0 3 = SpeedupOutput.notApplicable := by
  have h : speedupRendered 5 0 = SpeedupOutput.value ((5 : ℚ) / 0) := by
    unfold speedupRendered
    rw [if_pos (by norm_num)]
  refine ⟨h, ?_, ?_⟩
  · rw [h]
    intro hc
    exact SpeedupOutput.noConfusion hc
  · unfold speedupRendered
    rw [if_neg (by norm_num)]

/-- C6: for every length in the valid range and every option set with at
least one flag selected, the generated password has exactly the requested
number of characters and every character belongs to the pool assembled
from the selected charsets in the fixed order. -/
theorem generate_length_and_pool (length : Nat) (o : Options) (rand : Nat → Nat)
    (h1 : 4 ≤ length) (h2 : length ≤ 64)
    (h3 : (o.upper || o.lower || o.numbers || o.symbols) = true) :
    (servicePassword length o rand).length = length ∧
      ∀ c ∈ servicePassword length o rand, c ∈ poolList o :=
  ⟨servicePassword_length length o rand,
   servicePassword_mem length o rand (poolList_length_pos o h3)⟩

/-- C6 witness: the theorem at length 12, the default flags and the zero
random stream. -/
theorem generate_length_and_pool_witness :
    (servicePassword 12 ⟨true, true, true, false⟩ (fun _ => 0)).length = 12 ∧
      ∀ c ∈ servicePassword 12 ⟨true, true, true, false⟩ (fun _ => 0),
        c ∈ poolList ⟨true, true, true, false⟩ :=
  generate_length_and_pool 12 ⟨true, true, true, false⟩ (fun _ => 0)
    (by decide) (by decide) (by decide)

/-- C7: strength classification is a pure function of the password length
and the pool size through the entropy formula; length 12 over the
62-character pool classifies Strong and length 8 over the 10-character
pool classifies Weak. -/
theorem strength_classification_examples :
    (∀ (p1 p2 : List Char) (poolSize : Nat), p1.length = p2.length →
        evaluateStrength p1 poolSize = evaluateStrength p2 poolSize) ∧
      (poolList ⟨true, true, true, false⟩).length = 62 ∧
      evaluateStrength (List.replicate 12 'A') 62 = "Strong" ∧
      evaluateStrength (List.replicate 8 'A') 10 = "Weak" := by
  refine ⟨fun p1 p2 ps h => by unfold evaluateStrength; rw [h], by decide, ?_, ?_⟩
  · have h := logb_two_62_ge_five
    unfold evaluateStrength
    rw [List.length_replicate]
    have h60 : (60 : ℝ) ≤ (12 : ℕ) * Real.logb 2 ((62 : ℕ) : ℝ) := by
      push_cast
      nlinarith
    rw [if_neg (by push_cast at h60 ⊢; linarith), if_neg (by push_cast at h60 ⊢; linarith)]
  · have h := logb_two_ten_lt_five
    unfold evaluateStrength
    rw [List.length_replicate]
    rw [if_pos (by push_cast; nlinarith)]

/-- C8: while the store is disconnected, or when the underlying call
throws, every cache store operation returns its documented default
instead of raising, and under the degraded store the wrapped read
endpoints and the middleware still answer with freshly computed data. -/
theorem cache_store_degraded_defaults (conn : Bool) (st : Cache String)
    (u1 : Except Unit (Option String)) (u2 : Except Unit Bool) (u3 : Except Unit Nat)
    (u4 : Except Unit Int) (u5 u6 u7 : Except Unit (Cache String))
    (hcache : Cache HistoryResponse) (scache : Cache StatsResponse)
    (db : List Record) (limit page : Nat)
    (kp url : String) (mwst : MwState Nat) (body status : Nat)
    (h1 : conn = false ∨ u1 = Except.error ())
    (h2 : conn = false ∨ u2 = Except.error ())
    (h3 : conn = false ∨ u3 = Except.error ())
    (h4 : conn = false ∨ u4 = Except.error ())
    (h5 : conn = false ∨ u5 = Except.error ())
    (h6 : conn = false ∨ u6 = Except.error ())
    (h7 : conn = false ∨ u7 = Except.error ()) :
    redisGetModel conn u1 = none ∧
      redisExistsModel conn u2 = false ∧
      redisIncrModel conn u3 = 0 ∧
      redisTtlModel conn u4 = -1 ∧
      redisSetModel conn st u5 = st ∧
      redisDelModel conn st u6 = st ∧
      redisDelPatternModel conn st u7 = st ∧
      getHistory false hcache db limit page = (dbHistoryResponse db limit page, hcache) ∧
      getStats false scache db = (dbStatsResponse db, scache) ∧
      cacheMiddlewareStep false kp mwst url body status = ((body, false), mwst) := by
  refine ⟨?_, ?_, ?_, ?_, ?_, ?_, ?_, rfl, rfl, rfl⟩
  · rcases h1 with h | h
    · simp [redisGetModel, h]
    · cases conn <;> simp [redisGetModel, h]
  · rcases h2 with h | h
    · simp [redisExistsModel, h]
    · cases conn <;> simp [redisExistsModel, h]
  · rcases h3 with h | h
    · simp [redisIncrModel, h]
    · cases conn <;> simp [redisIncrModel, h]
  · rcases h4 with h | h
    · simp [redisTtlModel, h]
    · cases conn <;> simp [redisTtlModel, h]
  · rcases h5 with h | h
    · simp [redisSetModel, h]
    · cases conn <;> simp [redisSetModel, h]
  · rcases h6 with h | h
    · simp [redisDelModel, h]
    · cases conn <;> simp [redisDelModel, h]
  · rcases h7 with h | h
    · simp [redisDelPatternModel, h]
    · cases conn <;> simp [redisDelPatternModel, h]

/-- C8 witness: the theorem with the store disconnected, at concrete
inputs. -/
theorem cache_store_degraded_defaults_witness :
    redisGetModel false (Except.ok (some "v")) = none ∧
      redisExistsModel false (Except.ok true) = false ∧
      redisIncrModel false (Except.ok 5) = 0 ∧
      redisTtlModel false (Except.ok 7) = -1 ∧
      redisSetModel false [("k", "v")] (Except.ok []) = [("k", "v")] ∧
      redisDelModel false [("k", "v")] (Except.ok []) = [("k", "v")] ∧
      redisDelPatternModel false [("k", "v")] (Except.ok []) = [("k", "v")] ∧
      getHistory false [] [recA] 20 1 = (dbHistoryResponse [recA] 20 1, []) ∧
      getStats false [] [recA] = (dbStatsResponse [recA], []) ∧
      cacheMiddlewareStep false "cache" ⟨[], 0, 0, 0⟩ "/api/passwords/stats" 7 200
        = ((7, false), ⟨[], 0, 0, 0⟩) :=
  cache_store_degraded_defaults false [("k", "v")] (Except.ok (some "v")) (Except.ok true)
    (Except.ok 5) (Except.ok 7) (Except.ok []) (Except.ok []) (Except.ok [])
    [] [] [recA] 20 1 "cache" "/api/passwords/stats" ⟨[], 0, 0, 0⟩ 7 200
    (Or.inl rfl) (Or.inl rfl) (Or.inl rfl) (Or.inl rfl) (Or.inl rfl) (Or.inl rfl)
    (Or.inl rfl)

/-- C9: a generate request with an empty body receives the defaults of
length 12 and the upper, lower, numbers flags, passes validation, and
yields a 12-character password over the 62-character default pool. -/
theorem generate_empty_body_defaults (rand : Nat → Nat) :
    controllerLength emptyBody = 12 ∧
      controllerOptions emptyBody = ⟨true, true, true, false⟩ ∧
      validateOptions (controllerLength emptyBody) (controllerOptions emptyBody) = true ∧
      (poolList (controllerOptions emptyBody)).length = 62 ∧
      (servicePassword (controllerLength emptyBody) (controllerOptions emptyBody) rand).length
        = 12 ∧
      ∀ c ∈ servicePassword (controllerLength emptyBody) (controllerOptions emptyBody) rand,
        c ∈ poolList (controllerOptions emptyBody) :=
  ⟨rfl, rfl, rfl, by decide,
   servicePassword_length 12 (controllerOptions emptyBody) rand,
   servicePassword_mem 12 (controllerOptions emptyBody) rand (by decide)⟩

/-- C10: the history listing neither depends on nor exposes the stored
ipAddress and userAgent metadata: over any two record stores that agree
after the select projection, getHistory produces identical responses,
and the response data consists of projected records only. -/
theorem history_metadata_noninterference (ready : Bool) (cache : Cache HistoryResponse)
    (db1 db2 : List Record) (limit page : Nat) (h : ScrubEq db1 db2) :
    getHistory ready cache db1 limit page = getHistory ready cache db2 limit page := by
  unfold getHistory
  rw [dbHistoryResponse_scrubEq h limit page]

/-- C10 witness: the theorem at two one-record stores that differ only in
the ipAddress and userAgent fields. -/
theorem history_metadata_noninterference_witness :
    getHistory true [] [recA] 20 1 = getHistory true [] [recB] 20 1 :=
  history_metadata_noninterference true [] [recA] [recB] 20 1
    (List.Forall₂.cons (by decide) List.Forall₂.nil)

end PassGen
